import Mathlib

/-!
Shallow embedding of the speaker-identity reconciliation and
compatibility-translation layer of the voicepeak-api server.

The embedding models the code after the point where `SecurityUtils.safeExec`
stdout has been parsed into string lists (`split('\n')` plus the blank-line /
`UserApplication` filter): a catalog is a list of narrators, each carrying
either the emotion lines its `--list-emotion` call produced (`some es`) or
`none` when that call was rejected.  A failed top-level `--list-narrator`
call is an `Except.error` input.  JavaScript numbers are modelled as
rationals (`Rat`); JS falsy defaulting (`x || d`) and `Math.round` are
modelled explicitly.
-/

deriving instance DecidableEq for Except

/-- `CONFIG.VOICEVOX.BASE_SPEAKER_ID` from `app/config/constants.js`. -/
def BASE_SPEAKER_ID : Nat := 2041348160

/-- `CONFIG.DEFAULTS.EMOTION` from `app/config/constants.js`. -/
def DEFAULT_EMOTION : String := "honwaka"

/-- `CONFIG.VOICEVOX.DEFAULT_SPEAKER_UUID` from `app/config/constants.js`. -/
def DEFAULT_SPEAKER_UUID : Nat := 1

/-- One narrator as enumerated by `--list-narrator`: `emotions = some es`
models a successful `--list-emotion` call whose parsed output lines are
`es`; `none` models a rejected (`safeExec` failure) call for this
narrator. -/
structure NarratorEntry where
  name : String
  emotions : Option (List String)
deriving DecidableEq

/-- One entry of the VoiceVox-compatible `styles` array built in
`SpeakerIdUtils.generateVoiceVoxSpeakersList` (`app/utils/speaker-id-utils.js`).
The JSON field `type` is always `"talk"`. -/
structure VoiceVoxStyle where
  name : String
  id : Nat
  type : String
deriving DecidableEq

/-- One entry of the speakers array returned by
`SpeakerIdUtils.generateVoiceVoxSpeakersList`.  The constant
`supported_features` object is omitted from the model. -/
structure VoiceVoxSpeaker where
  name : String
  speaker_uuid : Nat
  styles : List VoiceVoxStyle
  version : String
deriving DecidableEq

/-- `emotions.map((emotion, index) => ({ name: emotion, id: baseId + index,
type: "talk" }))` from `generateVoiceVoxSpeakersList`. -/
def stylesFor (baseId : Nat) (emotions : List String) : List VoiceVoxStyle :=
  emotions.mapIdx (fun index emotion =>
    { name := emotion, id := baseId + index, type := "talk" })

/-- The narrator loop of `SpeakerIdUtils.generateVoiceVoxSpeakersList`
(`app/utils/speaker-id-utils.js`, lines 102-158): on success the running
`baseId` advances by `emotions.length`; on a per-narrator emotion-listing
failure a single synthetic style named `"通常"` is pushed and `baseId`
advances by 1. -/
def generateSpeakers (baseId : Nat) : List NarratorEntry → List VoiceVoxSpeaker
  | [] => []
  | n :: rest =>
    match n.emotions with
    | some es =>
        { name := n.name, speaker_uuid := DEFAULT_SPEAKER_UUID,
          styles := stylesFor baseId es, version := "1.0.0" }
          :: generateSpeakers (baseId + es.length) rest
    | none =>
        { name := n.name, speaker_uuid := DEFAULT_SPEAKER_UUID,
          styles := [{ name := "通常", id := baseId, type := "talk" }],
          version := "1.0.0" }
          :: generateSpeakers (baseId + 1) rest

/-- `SpeakerIdUtils.generateVoiceVoxSpeakersList`: a failure of the
top-level `--list-narrator` call is rethrown (`throw error` in the outer
catch). -/
def generateVoiceVoxSpeakersList (listing : Except String (List NarratorEntry)) :
    Except String (List VoiceVoxSpeaker) :=
  listing.map (generateSpeakers BASE_SPEAKER_ID)

/-- The `{ narrator, emotion }` object returned by
`SpeakerIdUtils.findNarratorByStyleId`. -/
structure NarratorInfo where
  narrator : String
  emotion : String
deriving DecidableEq

/-- Inner emotion loop of `findNarratorByStyleId`
(`app/utils/speaker-id-utils.js`, lines 49-58): compare the running counter
to `styleId`, return on match, else increment.  When no emotion matches the
counter has advanced by `emotions.length`. -/
def findEmotionSlot (styleId : Nat) (narrator : String) :
    Nat → List String → Option NarratorInfo
  | _, [] => none
  | currentId, emotion :: rest =>
      if currentId = styleId then some { narrator := narrator, emotion := emotion }
      else findEmotionSlot styleId narrator (currentId + 1) rest

/-- Narrator loop of `findNarratorByStyleId`: a narrator whose emotion
listing failed reserves exactly one counter value, answered with
`CONFIG.DEFAULTS.EMOTION`. -/
def findNarratorWalk (styleId : Nat) : Nat → List NarratorEntry → Option NarratorInfo
  | _, [] => none
  | currentId, n :: rest =>
    match n.emotions with
    | some es =>
      match findEmotionSlot styleId n.name currentId es with
      | some info => some info
      | none => findNarratorWalk styleId (currentId + es.length) rest
    | none =>
      if currentId = styleId then some { narrator := n.name, emotion := DEFAULT_EMOTION }
      else findNarratorWalk styleId (currentId + 1) rest

/-- `SpeakerIdUtils.findNarratorByStyleId`: the whole body is wrapped in
`try/catch`, and the catch returns `null`, so a failed top-level narrator
listing yields `none` rather than an error. -/
def findNarratorByStyleId (listing : Except String (List NarratorEntry))
    (styleId : Nat) : Option NarratorInfo :=
  match listing with
  | Except.error _ => none
  | Except.ok narrators => findNarratorWalk styleId BASE_SPEAKER_ID narrators

/-- Number of flat ids a narrator consumes during the walk: its emotion
count on success, exactly 1 on failure. -/
def slotCount (n : NarratorEntry) : Nat :=
  match n.emotions with
  | some es => es.length
  | none => 1

/-- Total number of flat ids consumed by a catalog. -/
def totalSlots (catalog : List NarratorEntry) : Nat :=
  (catalog.map slotCount).sum

/-- Emotion count of a narrator whose listing succeeded. -/
def emotionCount (n : NarratorEntry) : Nat :=
  (n.emotions.getD []).length

/-- Σ ei over the catalog. -/
def sumEmotionCounts (catalog : List NarratorEntry) : Nat :=
  (catalog.map emotionCount).sum

/-- All style ids of a built speakers list, in enumeration order
(narrators in catalog order, styles within each narrator in order). -/
def assignedIds (speakers : List VoiceVoxSpeaker) : List Nat :=
  (speakers.map (fun s => s.styles.map (fun st => st.id))).flatten

/-- The (narrator name, style name) pair the built catalog assigns to a
given flat id: the first style with that id, scanning speakers and styles
in enumeration order. -/
def catalogLookup : List VoiceVoxSpeaker → Nat → Option NarratorInfo
  | [], _ => none
  | s :: rest, styleId =>
    match s.styles.find? (fun st => st.id == styleId) with
    | some st => some { narrator := s.name, emotion := st.name }
    | none => catalogLookup rest styleId

/-- JS truthiness of an optional string field: an absent field and the
empty string are both falsy. -/
def strTruthy : Option String → Bool
  | none => false
  | some s => !(s == "")

/-- JS `v || d` on an optional numeric field: an absent field and the
number 0 are both falsy, so both select the default. -/
def jsNumOr (v : Option Rat) (d : Rat) : Rat :=
  match v with
  | none => d
  | some x => if x = 0 then d else x

/-- JS `Math.round`: round half toward positive infinity. -/
def jsRound (x : Rat) : Int := Int.floor (x + 1 / 2)

/-- JS `Number#toString` for the integral values used by the server
(integral rationals print as plain integers; the server only ever prints
values produced by integer-valued validation or `Math.round`). -/
def jsNumToString (x : Rat) : String :=
  if x.den = 1 then toString x.num else toString x

/-- JS `String#startsWith` over character lists. -/
def charsStartWith : List Char → List Char → Bool
  | [], _ => true
  | _ :: _, [] => false
  | p :: ps, c :: cs => p == c && charsStartWith ps cs

/-- Substring occurrence over character lists. -/
def charsContain (pat : List Char) : List Char → Bool
  | [] => pat.isEmpty
  | c :: cs => charsStartWith pat (c :: cs) || charsContain pat cs

/-- JS `String#includes`. -/
def jsIncludes (s pat : String) : Bool := charsContain pat.data s.data

/-- One mora of a VoiceVox accent phrase.  Only the `text` field is read
by `extractSynthesisParameters`; the remaining JSON fields (consonant,
vowel, lengths, pitch) are omitted from the model. -/
structure Mora where
  text : String
deriving DecidableEq

/-- One VoiceVox accent phrase; only `moras` is read by the extractor. -/
structure AccentPhrase where
  moras : List Mora
deriving DecidableEq

/-- The request body of `POST /synthesis` as read by
`extractSynthesisParameters` (`app/routes/voicevox-compat.js`, lines
254-289, duplicated inline in `app/index.js`, lines 760-807).  Every field
an incoming JSON object may omit is an `Option`; fields the extractor
never reads are omitted from the model. -/
structure AudioQuery where
  text : Option String
  speed : Option Rat
  pitch : Option Rat
  kana : Option String
  accent_phrases : Option (List AccentPhrase)
  speedScale : Option Rat
  pitchScale : Option Rat
deriving DecidableEq

/-- The `{ text, speed, pitch }` triple returned by
`extractSynthesisParameters`. -/
structure SynthesisParams where
  text : String
  speed : Rat
  pitch : Rat
deriving DecidableEq

/-- `audioQuery.accent_phrases.map(phrase =>
phrase.moras.map(mora => mora.text).join('')).join('')`. -/
def reconstructText (phrases : List AccentPhrase) : String :=
  String.join (phrases.map (fun phrase =>
    String.join (phrase.moras.map (fun m => m.text))))

/-- Text selection of the structured (non-flat) branch:
`text = audioQuery.kana || ''`, then rebuilt from `accent_phrases` when
falsy and phrases are present. -/
def extractAudioQueryText (audioQuery : AudioQuery) : String :=
  if audioQuery.kana.getD "" = "" ∧ (audioQuery.accent_phrases.getD []).length > 0 then
    reconstructText (audioQuery.accent_phrases.getD [])
  else audioQuery.kana.getD ""

/-- `extractSynthesisParameters` (`app/routes/voicevox-compat.js`, lines
254-289): the flat simple-request branch (`if (audioQuery.text)`) takes
`text`/`speed`/`pitch` with JS `||` defaulting and validates the ranges;
the structured branch converts `speedScale`/`pitchScale` with
`Math.round(scale * 100)` / `Math.round(scale * 50)`. -/
def extractSynthesisParameters (audioQuery : AudioQuery) :
    Except String SynthesisParams :=
  if strTruthy audioQuery.text then
    if jsNumOr audioQuery.speed 100 < 50 ∨ jsNumOr audioQuery.speed 100 > 200 then
      Except.error "スピードは50から200の間である必要があります"
    else if jsNumOr audioQuery.pitch 0 < -50 ∨ jsNumOr audioQuery.pitch 0 > 50 then
      Except.error "ピッチは-50から50の間である必要があります"
    else
      Except.ok { text := audioQuery.text.getD "",
                  speed := jsNumOr audioQuery.speed 100,
                  pitch := jsNumOr audioQuery.pitch 0 }
  else
    Except.ok { text := extractAudioQueryText audioQuery,
                speed := ((jsRound (jsNumOr audioQuery.speedScale 1 * 100) : Int) : Rat),
                pitch := ((jsRound (jsNumOr audioQuery.pitchScale 0 * 50) : Int) : Rat) }

/-- `SecurityUtils.validateNumericParam` (`app/security.js`, duplicated in
`app/swagger.js`, lines 1331-1352): an absent value and an out-of-range
value raise errors whose message names the parameter and its bounds.
String-typed inputs and NaN/Infinity are rejected by earlier checks that
are outside the rational model. -/
def validateNumericParam (value : Option Rat) (minVal maxVal : Rat)
    (paramName : String) : Except String Rat :=
  match value with
  | none => Except.error (paramName ++ "が指定されていません")
  | some v =>
      if v < minVal ∨ v > maxVal then
        Except.error (paramName ++ "は" ++ jsNumToString minVal ++ "から"
          ++ jsNumToString maxVal ++ "の間である必要があります")
      else Except.ok v

/-- Invocation argument builder shared by `POST /api/synthesize`
(`app/index.js`, lines 307-318) and the VoiceVox-compatible
`POST /synthesis` (`app/routes/voicevox-compat.js`, lines 169-181): the
base arguments are always pushed; `--speed` is pushed only when
`speed !== 100` and `--pitch` only when `pitch !== 0`. -/
def buildSynthesisArgs (text outputPath narrator emotionParam : String)
    (speed pitch : Rat) : List String :=
  (["--say", text, "--out", outputPath, "--narrator", narrator,
    "--emotion", emotionParam]
    ++ (if speed ≠ 100 then ["--speed", jsNumToString speed] else []))
    ++ (if pitch ≠ 0 then ["--pitch", jsNumToString pitch] else [])

/-- Outcome of the awaited `SecurityUtils.safeExec` call: `success` is a
zero exit code (resolved promise), `failure` is a rejected promise (spawn
error, non-zero exit, or timeout). -/
inductive ExecOutcome where
  | success (stdout : String)
  | failure (message : String)
deriving DecidableEq

/-- The local synthesis step after argument building (`app/index.js`,
lines 321-325 and 849-853): a rejected exec propagates its error, and a
zero exit code with no output file at `outputPath` throws the distinct
message `音声ファイルが生成されませんでした`. -/
def runVoicepeakSynthesis (execResult : ExecOutcome) (outputExists : Bool) :
    Except String Unit :=
  match execResult with
  | ExecOutcome.failure m => Except.error m
  | ExecOutcome.success _ =>
      if outputExists then Except.ok ()
      else Except.error "音声ファイルが生成されませんでした"

/-- One entry of the uniform `{ detail: [{loc, msg, type}] }` error
envelope together with the HTTP status chosen for it. -/
structure ErrorEnvelope where
  status : Nat
  loc : List String
  msg : String
  type : String
deriving DecidableEq

/-- Error classification of the inline `POST /synthesis` handler
(`app/index.js`, lines 867-926): a chain of `error.message.includes`
checks; `statusCode` starts at 422 and is only ever changed by the
rate-limit branch. -/
def classifyVoiceVoxSynthesisError (message : String) : ErrorEnvelope :=
  if jsIncludes message "リクエスト制限" then
    { status := 429, loc := ["request"],
      msg := "リクエスト制限に達しました", type := "rate_limit" }
  else if jsIncludes message "テキスト" then
    { status := 422, loc := ["body", "kana"],
      msg := "無効なテキストです", type := "value_error" }
  else if jsIncludes message "ナレーター名" then
    { status := 422, loc := ["body", "narrator"],
      msg := "無効なナレーター名です", type := "value_error" }
  else if jsIncludes message "感情" then
    { status := 422, loc := ["body", "emotion"],
      msg := "無効な感情パラメータです", type := "value_error" }
  else if jsIncludes message "音声ファイルが生成されませんでした" then
    { status := 422, loc := ["synthesis"],
      msg := "音声ファイルの生成に失敗しました", type := "synthesis_error" }
  else
    { status := 422, loc := ["internal"],
      msg := "内部サーバーエラーが発生しました", type := "internal_error" }

/-- `ResponseFormatter.handleValidationError`
(`app/utils/response-formatter.js`, lines 51-88): the message-pattern
table used by the modular routes, which maps the missing-output condition
to HTTP 500 with a `synthesis_error` entry. -/
def handleValidationError (message : String) : ErrorEnvelope :=
  if jsIncludes message "リクエスト制限" then
    { status := 429, loc := ["request", ""],
      msg := "リクエスト制限に達しました", type := "rate_limit" }
  else if jsIncludes message "テキスト" then
    { status := 422, loc := ["body", "text"],
      msg := "無効なテキストです", type := "value_error" }
  else if jsIncludes message "ナレーター名" then
    { status := 422, loc := ["body", "narrator"],
      msg := "無効なナレーター名です", type := "value_error" }
  else if jsIncludes message "感情" then
    { status := 422, loc := ["body", "emotion"],
      msg := "無効な感情パラメータです", type := "value_error" }
  else if jsIncludes message "数値" || jsIncludes message "スピード"
      || jsIncludes message "ピッチ" then
    { status := 422, loc := ["body", "speed"],
      msg := "無効な数値パラメータです", type := "value_error" }
  else if jsIncludes message "許可されていない文字"
      || jsIncludes message "不正な文字" then
    { status := 422, loc := ["body", "text"],
      msg := "許可されていない文字が含まれています", type := "value_error" }
  else if jsIncludes message "ファイルパス" then
    { status := 500, loc := ["internal", ""],
      msg := "ファイルパスエラーが発生しました", type := "internal_error" }
  else if jsIncludes message "音声ファイルが生成されませんでした" then
    { status := 500, loc := ["synthesis", ""],
      msg := "Voicepeakが音声ファイルを生成できませんでした。パラメータを確認してください。",
      type := "synthesis_error" }
  else
    { status := 500, loc := ["internal", ""],
      msg := "内部サーバーエラーが発生しました", type := "internal_error" }

/-- The rate-limit error message thrown by `SecurityUtils.checkRateLimit`. -/
def rateLimitMessage : String :=
  "リクエスト制限に達しました。しばらく待ってから再試行してください。"

/-- `SecurityUtils.checkRateLimit` (`app/security.js`, duplicated in
`app/swagger.js`, lines 1435-1452), restricted to one client's map entry:
a missing entry is first materialized as `[]`; timestamps newer than
`now - windowMs` are kept; if at least `maxRequests` remain the call
throws and the map keeps the entry it had after materialization, else
`now` is appended to the filtered list and stored.  The returned pair is
(outcome, the entry stored in the map after the call). -/
def checkRateLimit (entry : Option (List Int)) (now : Int)
    (maxRequests : Nat) (windowMs : Int) :
    Except String Unit × Option (List Int) :=
  let entry0 := match entry with
    | none => some ([] : List Int)
    | some l => some l
  let requests := entry0.getD []
  let validRequests := requests.filter (fun time => decide (now - windowMs < time))
  if maxRequests ≤ validRequests.length then
    (Except.error rateLimitMessage, entry0)
  else
    (Except.ok (), some (validRequests ++ [now]))

lemma stylesFor_cons (b : Nat) (e : String) (es : List String) :
    stylesFor b (e :: es)
      = { name := e, id := b, type := "talk" } :: stylesFor (b + 1) es := by
  simp only [stylesFor, List.mapIdx_cons, Nat.add_zero]
  congr 1
  have hfun : (fun (i : Nat) (emotion : String) =>
        ({ name := emotion, id := b + (i + 1), type := "talk" } : VoiceVoxStyle))
      = fun (index : Nat) (emotion : String) =>
        ({ name := emotion, id := b + 1 + index, type := "talk" } : VoiceVoxStyle) := by
    funext i emotion
    congr 1
    omega
  exact congrFun (congrArg List.mapIdx hfun) es

lemma stylesFor_ids (es : List String) :
    ∀ b : Nat, (stylesFor b es).map (fun st => st.id) = List.range' b es.length := by
  induction es with
  | nil => intro b; simp [stylesFor]
  | cons e es ih =>
      intro b
      rw [stylesFor_cons]
      simp [List.range'_succ, ih]

lemma assignedIds_cons (s : VoiceVoxSpeaker) (rest : List VoiceVoxSpeaker) :
    assignedIds (s :: rest) = s.styles.map (fun st => st.id) ++ assignedIds rest := by
  simp [assignedIds]

lemma assignedIds_generateSpeakers (catalog : List NarratorEntry) :
    ∀ b : Nat, (∀ n ∈ catalog, n.emotions ≠ none) →
      assignedIds (generateSpeakers b catalog)
        = List.range' b (sumEmotionCounts catalog) := by
  induction catalog with
  | nil => intro b _; simp [assignedIds, generateSpeakers, sumEmotionCounts]
  | cons n rest ih =>
      intro b h
      have hn := h n (List.mem_cons_self n rest)
      obtain ⟨es, hes⟩ := Option.ne_none_iff_exists'.mp hn
      have hsum : sumEmotionCounts (n :: rest)
          = es.length + sumEmotionCounts rest := by
        simp [sumEmotionCounts, emotionCount, hes]
      rw [hsum]
      simp only [generateSpeakers, hes]
      rw [assignedIds_cons]
      simp only
      rw [stylesFor_ids, ih (b + es.length) (fun m hm => h m (List.mem_cons_of_mem n hm))]
      have := List.range'_append b es.length (sumEmotionCounts rest) 1
      simp only [Nat.add_comm, one_mul] at this ⊢
      exact this

lemma findEmotionSlot_eq_find (es : List String) :
    ∀ (b styleId : Nat) (nm : String),
      findEmotionSlot styleId nm b es
        = ((stylesFor b es).find? (fun st => st.id == styleId)).map
            (fun st => { narrator := nm, emotion := st.name }) := by
  induction es with
  | nil => intro b styleId nm; simp [findEmotionSlot, stylesFor]
  | cons e es ih =>
      intro b styleId nm
      rw [stylesFor_cons]
      by_cases h : b = styleId
      · simp [findEmotionSlot, h, List.find?_cons]
      · simp only [findEmotionSlot, if_neg h, List.find?_cons]
        have hb : (({ name := e, id := b, type := "talk" } : VoiceVoxStyle).id
            == styleId) = false := by
          simp [h]
        rw [hb]
        exact ih (b + 1) styleId nm

lemma findNarratorWalk_eq_catalogLookup (catalog : List NarratorEntry)
    (h : ∀ n ∈ catalog, n.emotions ≠ none) :
    ∀ (b styleId : Nat),
      findNarratorWalk styleId b catalog
        = catalogLookup (generateSpeakers b catalog) styleId := by
  induction catalog with
  | nil => intro b styleId; simp [findNarratorWalk, generateSpeakers, catalogLookup]
  | cons n rest ih =>
      intro b styleId
      obtain ⟨es, hes⟩ := Option.ne_none_iff_exists'.mp (h n (List.mem_cons_self n rest))
      have hrest := ih (fun m hm => h m (List.mem_cons_of_mem n hm))
      simp only [findNarratorWalk, generateSpeakers, hes, catalogLookup]
      rw [findEmotionSlot_eq_find es b styleId n.name]
      cases hfind : (stylesFor b es).find? (fun st => st.id == styleId) with
      | none => simp [hrest (b + es.length) styleId]
      | some st => simp

lemma findEmotionSlot_none (es : List String) :
    ∀ (b styleId : Nat) (nm : String),
      (styleId < b ∨ b + es.length ≤ styleId) →
      findEmotionSlot styleId nm b es = none := by
  induction es with
  | nil => intro b styleId nm _; rfl
  | cons e es ih =>
      intro b styleId nm hrange
      simp only [List.length_cons] at hrange
      have hne : b ≠ styleId := by omega
      simp only [findEmotionSlot, if_neg hne]
      exact ih (b + 1) styleId nm (by omega)

lemma findNarratorWalk_none (catalog : List NarratorEntry) :
    ∀ (b styleId : Nat),
      (styleId < b ∨ b + totalSlots catalog ≤ styleId) →
      findNarratorWalk styleId b catalog = none := by
  induction catalog with
  | nil => intro b styleId _; rfl
  | cons n rest ih =>
      intro b styleId hrange
      have htot : totalSlots (n :: rest) = slotCount n + totalSlots rest := by
        simp [totalSlots]
      rw [htot] at hrange
      cases hes : n.emotions with
      | some es =>
          have hslot : slotCount n = es.length := by simp [slotCount, hes]
          simp only [findNarratorWalk, hes]
          rw [findEmotionSlot_none es b styleId n.name (by omega)]
          exact ih (b + es.length) styleId (by omega)
      | none =>
          have hslot : slotCount n = 1 := by simp [slotCount, hes]
          have hne : b ≠ styleId := by omega
          simp only [findNarratorWalk, hes, if_neg hne]
          exact ih (b + 1) styleId (by omega)

lemma findEmotionSlot_isSome (es : List String) :
    ∀ (b styleId : Nat) (nm : String),
      b ≤ styleId → styleId < b + es.length →
      (findEmotionSlot styleId nm b es).isSome := by
  induction es with
  | nil => intro b styleId nm h1 h2; simp only [List.length_nil] at h2; omega
  | cons e es ih =>
      intro b styleId nm h1 h2
      simp only [List.length_cons] at h2
      by_cases h : b = styleId
      · simp [findEmotionSlot, h]
      · simp only [findEmotionSlot, if_neg h]
        exact ih (b + 1) styleId nm (by omega) (by omega)

lemma findNarratorWalk_isSome (catalog : List NarratorEntry) :
    ∀ (b styleId : Nat),
      b ≤ styleId → styleId < b + totalSlots catalog →
      (findNarratorWalk styleId b catalog).isSome := by
  induction catalog with
  | nil => intro b styleId h1 h2; simp [totalSlots] at h2; omega
  | cons n rest ih =>
      intro b styleId h1 h2
      have htot : totalSlots (n :: rest) = slotCount n + totalSlots rest := by
        simp [totalSlots]
      rw [htot] at h2
      cases hes : n.emotions with
      | some es =>
          have hslot : slotCount n = es.length := by simp [slotCount, hes]
          simp only [findNarratorWalk, hes]
          by_cases hin : styleId < b + es.length
          · have := findEmotionSlot_isSome es b styleId n.name h1 hin
            cases hfind : findEmotionSlot styleId n.name b es with
            | none => rw [hfind] at this; simp at this
            | some info => simp
          · rw [findEmotionSlot_none es b styleId n.name (by omega)]
            exact ih (b + es.length) styleId (by omega) (by omega)
      | none =>
          have hslot : slotCount n = 1 := by simp [slotCount, hes]
          by_cases h : b = styleId
          · simp [findNarratorWalk, hes, h]
          · simp only [findNarratorWalk, hes, if_neg h]
            exact ih (b + 1) styleId (by omega) (by omega)

lemma totalSlots_eq_sum (catalog : List NarratorEntry)
    (h : ∀ n ∈ catalog, n.emotions ≠ none) :
    totalSlots catalog = sumEmotionCounts catalog := by
  induction catalog with
  | nil => rfl
  | cons n rest ih =>
      obtain ⟨es, hes⟩ := Option.ne_none_iff_exists'.mp (h n (List.mem_cons_self n rest))
      have := ih (fun m hm => h m (List.mem_cons_of_mem n hm))
      simp [totalSlots, sumEmotionCounts, slotCount, emotionCount, hes] at this ⊢
      exact this

lemma generateSpeakers_append (xs ys : List NarratorEntry) :
    ∀ b : Nat,
      generateSpeakers b (xs ++ ys)
        = generateSpeakers b xs ++ generateSpeakers (b + totalSlots xs) ys := by
  induction xs with
  | nil => intro b; simp [generateSpeakers, totalSlots]
  | cons n xs ih =>
      intro b
      have htot : totalSlots (n :: xs) = slotCount n + totalSlots xs := by
        simp [totalSlots]
      cases hes : n.emotions with
      | some es =>
          have hslot : slotCount n = es.length := by simp [slotCount, hes]
          have harith : b + totalSlots (n :: xs) = b + es.length + totalSlots xs := by
            rw [htot, hslot]; omega
          simp only [List.cons_append, generateSpeakers, hes, List.append_eq,
            ih (b + es.length), harith]
      | none =>
          have hslot : slotCount n = 1 := by simp [slotCount, hes]
          have harith : b + totalSlots (n :: xs) = b + 1 + totalSlots xs := by
            rw [htot, hslot]; omega
          simp only [List.cons_append, generateSpeakers, hes, List.append_eq,
            ih (b + 1), harith]

lemma findNarratorWalk_append_of_none (xs ys : List NarratorEntry) :
    ∀ (b styleId : Nat),
      findNarratorWalk styleId b xs = none →
      findNarratorWalk styleId b (xs ++ ys)
        = findNarratorWalk styleId (b + totalSlots xs) ys := by
  induction xs with
  | nil => intro b styleId _; simp [totalSlots]
  | cons n xs ih =>
      intro b styleId hnone
      have htot : totalSlots (n :: xs) = slotCount n + totalSlots xs := by
        simp [totalSlots]
      cases hes : n.emotions with
      | some es =>
          have hslot : slotCount n = es.length := by simp [slotCount, hes]
          simp only [findNarratorWalk, hes] at hnone ⊢
          cases hfind : findEmotionSlot styleId n.name b es with
          | some info => rw [hfind] at hnone; simp at hnone
          | none =>
              rw [hfind] at hnone
              simp only [List.cons_append, findNarratorWalk, hes, hfind, List.append_eq]
              rw [ih (b + es.length) styleId hnone, htot, hslot]
              congr 1
              omega
      | none =>
          have hslot : slotCount n = 1 := by simp [slotCount, hes]
          simp only [findNarratorWalk, hes] at hnone ⊢
          by_cases h : b = styleId
          · rw [if_pos h] at hnone; simp at hnone
          · rw [if_neg h] at hnone
            simp only [List.cons_append, findNarratorWalk, hes, if_neg h, List.append_eq]
            rw [ih (b + 1) styleId hnone, htot, hslot]
            congr 1
            omega

lemma jsRound_eq (x : Rat) (z : Int) (h1 : (z : Rat) ≤ x + 1 / 2)
    (h2 : x + 1 / 2 < z + 1) : jsRound x = z := by
  unfold jsRound
  rw [Int.floor_eq_iff]
  exact ⟨h1, by exact_mod_cast h2⟩

/-- C1: on a catalog whose emotion listings all succeed, the catalog build
assigns, in enumeration order, exactly the ids
`BASE_SPEAKER_ID, BASE_SPEAKER_ID+1, …, BASE_SPEAKER_ID + Σei - 1`
(`List.range' BASE_SPEAKER_ID (Σei)`), with no gaps, no duplicates, and
strictly increasing. -/
theorem generate_ids_contiguous (catalog : List NarratorEntry)
    (h : ∀ n ∈ catalog, n.emotions ≠ none) :
    generateVoiceVoxSpeakersList (Except.ok catalog)
        = Except.ok (generateSpeakers BASE_SPEAKER_ID catalog)
    ∧ assignedIds (generateSpeakers BASE_SPEAKER_ID catalog)
        = List.range' BASE_SPEAKER_ID (sumEmotionCounts catalog)
    ∧ (assignedIds (generateSpeakers BASE_SPEAKER_ID catalog)).Pairwise (· < ·)
    ∧ (assignedIds (generateSpeakers BASE_SPEAKER_ID catalog)).Nodup := by
  have hids := assignedIds_generateSpeakers catalog BASE_SPEAKER_ID h
  refine ⟨rfl, hids, ?_, ?_⟩
  · rw [hids]; exact List.pairwise_lt_range' _ _
  · rw [hids]; exact List.nodup_range' _ _

/-- Witness for C1 at a concrete two-narrator catalog. -/
theorem generate_ids_contiguous_witness :
    assignedIds (generateSpeakers BASE_SPEAKER_ID
        [{ name := "Miyamai Moca", emotions := some ["honwaka", "fun"] },
         { name := "Frimomen", emotions := some ["wasawasa"] }])
      = [2041348160, 2041348161, 2041348162] := by
  have := (generate_ids_contiguous
      [{ name := "Miyamai Moca", emotions := some ["honwaka", "fun"] },
       { name := "Frimomen", emotions := some ["wasawasa"] }]
      (by decide)).2.1
  rw [this]
  decide

/-- C2: on a catalog whose emotion listings all succeed, the reverse lookup
is the exact inverse of the catalog build: for every id it returns exactly
the (narrator, style) pair that `generateSpeakers` assigned that id
(`catalogLookup` over the build output), every id in
`[BASE_SPEAKER_ID, BASE_SPEAKER_ID + Σei)` resolves to some pair, and every
id outside that range resolves to the not-found sentinel `none`, not an
error. -/
theorem find_inverse_of_generate (catalog : List NarratorEntry)
    (h : ∀ n ∈ catalog, n.emotions ≠ none) (styleId : Nat) :
    findNarratorByStyleId (Except.ok catalog) styleId
        = catalogLookup (generateSpeakers BASE_SPEAKER_ID catalog) styleId
    ∧ (BASE_SPEAKER_ID ≤ styleId →
        styleId < BASE_SPEAKER_ID + sumEmotionCounts catalog →
        (findNarratorByStyleId (Except.ok catalog) styleId).isSome)
    ∧ ((styleId < BASE_SPEAKER_ID ∨
          BASE_SPEAKER_ID + sumEmotionCounts catalog ≤ styleId) →
        findNarratorByStyleId (Except.ok catalog) styleId = none) := by
  have hts := totalSlots_eq_sum catalog h
  refine ⟨?_, ?_, ?_⟩
  · exact findNarratorWalk_eq_catalogLookup catalog h BASE_SPEAKER_ID styleId
  · intro h1 h2
    exact findNarratorWalk_isSome catalog BASE_SPEAKER_ID styleId h1 (by omega)
  · intro hrange
    exact findNarratorWalk_none catalog BASE_SPEAKER_ID styleId (by omega)

/-- Witness for C2: the documented example catalog — narrator
"Miyamai Moca" with emotions ["honwaka", "fun"] — where id 2041348161
resolves to ("Miyamai Moca", "fun") and an id past the range resolves to
`none`. -/
theorem find_inverse_of_generate_witness :
    findNarratorByStyleId
        (Except.ok [{ name := "Miyamai Moca", emotions := some ["honwaka", "fun"] }])
        2041348161
      = some { narrator := "Miyamai Moca", emotion := "fun" }
    ∧ findNarratorByStyleId
        (Except.ok [{ name := "Miyamai Moca", emotions := some ["honwaka", "fun"] }])
        2041348162
      = none := by
  constructor
  · have := (find_inverse_of_generate
        [{ name := "Miyamai Moca", emotions := some ["honwaka", "fun"] }]
        (by decide) 2041348161).1
    rw [this]
    decide
  · exact (find_inverse_of_generate
        [{ name := "Miyamai Moca", emotions := some ["honwaka", "fun"] }]
        (by decide) 2041348162).2.2 (by right; decide)

/-- Counterexample to C3 as stated: a flat payload whose `speed` field is
present with value 0 is not passed through unchanged — JS `||` treats 0 as
absent and substitutes the default 100, and the request then succeeds with
speed 100 ≠ 0. -/
theorem extract_flat_zero_speed_replaced :
    extractSynthesisParameters
        { text := some "こんにちは", speed := some 0, pitch := some (-10),
          kana := none, accent_phrases := none,
          speedScale := none, pitchScale := none }
      = Except.ok { text := "こんにちは", speed := 100, pitch := -10 }
    ∧ (100 : Rat) ≠ 0 := by
  constructor
  · decide
  · norm_num

/-- C3 (amended): in the flat simple-request branch a successful
extraction returns `speed = speed || 100` and `pitch = pitch || 0` — the
payload values unchanged whenever they are present and nonzero, the
defaults when absent or zero; in the structured branch the extraction
always succeeds with `speed = Math.round((speedScale || 1.0) * 100)` and
`pitch = Math.round((pitchScale || 0.0) * 50)`. -/
theorem extract_params_normalization (q : AudioQuery) :
    (strTruthy q.text = true →
      ∀ p, extractSynthesisParameters q = Except.ok p →
        p.speed = jsNumOr q.speed 100 ∧ p.pitch = jsNumOr q.pitch 0)
    ∧ (strTruthy q.text = false →
      extractSynthesisParameters q
        = Except.ok { text := extractAudioQueryText q,
                      speed := ((jsRound (jsNumOr q.speedScale 1 * 100) : Int) : Rat),
                      pitch := ((jsRound (jsNumOr q.pitchScale 0 * 50) : Int) : Rat) }) := by
  constructor
  · intro hflat p hok
    simp only [extractSynthesisParameters, hflat, if_true] at hok
    by_cases h1 : jsNumOr q.speed 100 < 50 ∨ jsNumOr q.speed 100 > 200
    · simp [h1] at hok
    · by_cases h2 : jsNumOr q.pitch 0 < -50 ∨ jsNumOr q.pitch 0 > 50
      · simp [h1, h2] at hok
      · simp only [if_neg h1, if_neg h2, Except.ok.injEq] at hok
        rw [← hok]
        exact ⟨rfl, rfl⟩
  · intro hflat
    simp only [extractSynthesisParameters, hflat, Bool.false_eq_true, if_false]

/-- Witness for C3 (amended): the spec's two examples — a flat payload
with speed 120 and pitch -10 keeps both unchanged, and a structured
payload with `speedScale = 1.5`, `pitchScale = 0.4` yields speed 150 and
pitch 20. -/
theorem extract_params_normalization_witness :
    extractSynthesisParameters
        { text := some "こんにちは", speed := some 120, pitch := some (-10),
          kana := none, accent_phrases := none,
          speedScale := none, pitchScale := none }
      = Except.ok { text := "こんにちは", speed := 120, pitch := -10 }
    ∧ extractSynthesisParameters
        { text := none, speed := none, pitch := none,
          kana := some "コンニチワ", accent_phrases := none,
          speedScale := some 1.5, pitchScale := some 0.4 }
      = Except.ok { text := "コンニチワ", speed := 150, pitch := 20 } := by
  constructor
  · have h := (extract_params_normalization
        { text := some "こんにちは", speed := some 120, pitch := some (-10),
          kana := none, accent_phrases := none,
          speedScale := none, pitchScale := none }).1 (by decide)
    decide
  · have h := (extract_params_normalization
        { text := none, speed := none, pitch := none,
          kana := some "コンニチワ", accent_phrases := none,
          speedScale := some 1.5, pitchScale := some 0.4 }).2 (by decide)
    rw [h]
    have hs : jsRound (jsNumOr (some (1.5 : Rat)) 1 * 100) = 150 :=
      jsRound_eq _ 150 (by norm_num [jsNumOr]) (by norm_num [jsNumOr])
    have hp : jsRound (jsNumOr (some (0.4 : Rat)) 0 * 50) = 20 :=
      jsRound_eq _ 20 (by norm_num [jsNumOr]) (by norm_num [jsNumOr])
    have ht : extractAudioQueryText
        { text := none, speed := none, pitch := none,
          kana := some "コンニチワ", accent_phrases := none,
          speedScale := some 1.5, pitchScale := some 0.4 } = "コンニチワ" := by
      simp [extractAudioQueryText]
    rw [ht, hs, hp]
    norm_num
/-- C4: the invocation argument builder always emits the text, output
path, narrator and emotion arguments as its first eight entries, appends
`--speed` with the requested value exactly when the speed differs from
100, and appends `--pitch` with the requested value exactly when the
pitch differs from 0. -/
theorem synthesis_args_flags (text outputPath narrator emotionParam : String)
    (speed pitch : Rat) :
    (buildSynthesisArgs text outputPath narrator emotionParam speed pitch).take 8
        = ["--say", text, "--out", outputPath, "--narrator", narrator,
           "--emotion", emotionParam]
    ∧ (speed = 100 → pitch = 0 →
        buildSynthesisArgs text outputPath narrator emotionParam speed pitch
          = ["--say", text, "--out", outputPath, "--narrator", narrator,
             "--emotion", emotionParam])
    ∧ (speed ≠ 100 → pitch = 0 →
        buildSynthesisArgs text outputPath narrator emotionParam speed pitch
          = ["--say", text, "--out", outputPath, "--narrator", narrator,
             "--emotion", emotionParam, "--speed", jsNumToString speed])
    ∧ (speed = 100 → pitch ≠ 0 →
        buildSynthesisArgs text outputPath narrator emotionParam speed pitch
          = ["--say", text, "--out", outputPath, "--narrator", narrator,
             "--emotion", emotionParam, "--pitch", jsNumToString pitch])
    ∧ (speed ≠ 100 → pitch ≠ 0 →
        buildSynthesisArgs text outputPath narrator emotionParam speed pitch
          = ["--say", text, "--out", outputPath, "--narrator", narrator,
             "--emotion", emotionParam, "--speed", jsNumToString speed,
             "--pitch", jsNumToString pitch]) := by
  refine ⟨?_, ?_, ?_, ?_, ?_⟩
  · by_cases hs : speed = 100 <;> by_cases hp : pitch = 0 <;>
      simp [buildSynthesisArgs, hs, hp]
  · intro hs hp; simp [buildSynthesisArgs, hs, hp]
  · intro hs hp; simp [buildSynthesisArgs, hs, hp]
  · intro hs hp; simp [buildSynthesisArgs, hs, hp]
  · intro hs hp; simp [buildSynthesisArgs, hs, hp]

/-- Witness for C4: speed 100 and pitch 0 produce no speed/pitch flags;
speed 150 and pitch -20 produce both flags with those exact values. -/
theorem synthesis_args_flags_witness :
    buildSynthesisArgs "こんにちは" "/app/temp/o.wav" "Miyamai Moca" "honwaka=50" 100 0
        = ["--say", "こんにちは", "--out", "/app/temp/o.wav", "--narrator",
           "Miyamai Moca", "--emotion", "honwaka=50"]
    ∧ buildSynthesisArgs "こんにちは" "/app/temp/o.wav" "Miyamai Moca" "honwaka=50"
          150 (-20)
        = ["--say", "こんにちは", "--out", "/app/temp/o.wav", "--narrator",
           "Miyamai Moca", "--emotion", "honwaka=50", "--speed", "150",
           "--pitch", "-20"] := by
  constructor
  · exact (synthesis_args_flags "こんにちは" "/app/temp/o.wav" "Miyamai Moca"
      "honwaka=50" 100 0).2.1 rfl rfl
  · have h := (synthesis_args_flags "こんにちは" "/app/temp/o.wav" "Miyamai Moca"
      "honwaka=50" 150 (-20)).2.2.2.2 (by norm_num) (by norm_num)
    rw [h]
    decide

/-- C5: a flat simple-request payload with speed outside [50, 200] is
rejected with the speed-bound message, one with pitch outside [-50, 50]
is rejected with the pitch-bound message, and the native validator
`validateNumericParam` rejects the same ranges with the same
bound-naming messages. -/
theorem out_of_range_speed_pitch_rejected :
    (∀ q : AudioQuery, strTruthy q.text = true →
        (jsNumOr q.speed 100 < 50 ∨ jsNumOr q.speed 100 > 200) →
        extractSynthesisParameters q
          = Except.error "スピードは50から200の間である必要があります")
    ∧ (∀ q : AudioQuery, strTruthy q.text = true →
        ¬(jsNumOr q.speed 100 < 50 ∨ jsNumOr q.speed 100 > 200) →
        (jsNumOr q.pitch 0 < -50 ∨ jsNumOr q.pitch 0 > 50) →
        extractSynthesisParameters q
          = Except.error "ピッチは-50から50の間である必要があります")
    ∧ (∀ s : Rat, (s < 50 ∨ s > 200) →
        validateNumericParam (some s) 50 200 "スピード"
          = Except.error "スピードは50から200の間である必要があります")
    ∧ (∀ p : Rat, (p < -50 ∨ p > 50) →
        validateNumericParam (some p) (-50) 50 "ピッチ"
          = Except.error "ピッチは-50から50の間である必要があります") := by
  refine ⟨?_, ?_, ?_, ?_⟩
  · intro q hflat hout
    simp [extractSynthesisParameters, hflat, hout]
  · intro q hflat hin hout
    simp [extractSynthesisParameters, hflat, hin, hout]
  · intro s hs
    simp only [validateNumericParam, if_pos hs]
    decide
  · intro p hp
    simp only [validateNumericParam, if_pos hp]
    decide

/-- Witness for C5: speed 30 and pitch 60 are rejected in the flat
third-party shape, and by the native validator. -/
theorem out_of_range_speed_pitch_rejected_witness :
    extractSynthesisParameters
        { text := some "こんにちは", speed := some 30, pitch := none,
          kana := none, accent_phrases := none,
          speedScale := none, pitchScale := none }
      = Except.error "スピードは50から200の間である必要があります"
    ∧ extractSynthesisParameters
        { text := some "こんにちは", speed := none, pitch := some 60,
          kana := none, accent_phrases := none,
          speedScale := none, pitchScale := none }
      = Except.error "ピッチは-50から50の間である必要があります"
    ∧ validateNumericParam (some 30) 50 200 "スピード"
        = Except.error "スピードは50から200の間である必要があります"
    ∧ validateNumericParam (some 60) (-50) 50 "ピッチ"
        = Except.error "ピッチは-50から50の間である必要があります" := by
  refine ⟨?_, ?_, ?_, ?_⟩
  · exact out_of_range_speed_pitch_rejected.1 _ (by decide) (by decide)
  · exact out_of_range_speed_pitch_rejected.2.1 _ (by decide) (by decide) (by decide)
  · exact out_of_range_speed_pitch_rejected.2.2.1 30 (by norm_num)
  · exact out_of_range_speed_pitch_rejected.2.2.2 60 (by norm_num)

/-- C6: when a narrator's emotion listing fails, the catalog build emits
for it exactly one synthetic style named `"通常"` occupying the single
reserved id `BASE_SPEAKER_ID + totalSlots pre` and numbers the following
narrators from the next id; the reverse lookup answers that reserved id
with the same narrator and the fixed default emotion `"honwaka"`, and for
any larger id it skips past the failed narrator by exactly one counter
step, continuing over the remaining narrators from the same next id — so
both operations number all subsequent narrators identically. -/
theorem emotion_failure_synthetic_slot (pre post : List NarratorEntry)
    (nf : NarratorEntry) (h : nf.emotions = none) :
    generateSpeakers BASE_SPEAKER_ID (pre ++ nf :: post)
        = generateSpeakers BASE_SPEAKER_ID pre
          ++ { name := nf.name, speaker_uuid := DEFAULT_SPEAKER_UUID,
               styles := [{ name := "通常",
                            id := BASE_SPEAKER_ID + totalSlots pre,
                            type := "talk" }],
               version := "1.0.0" }
            :: generateSpeakers (BASE_SPEAKER_ID + totalSlots pre + 1) post
    ∧ findNarratorByStyleId (Except.ok (pre ++ nf :: post))
          (BASE_SPEAKER_ID + totalSlots pre)
        = some { narrator := nf.name, emotion := DEFAULT_EMOTION }
    ∧ (∀ styleId, BASE_SPEAKER_ID + totalSlots pre < styleId →
        findNarratorByStyleId (Except.ok (pre ++ nf :: post)) styleId
          = findNarratorWalk styleId (BASE_SPEAKER_ID + totalSlots pre + 1) post) := by
  refine ⟨?_, ?_, ?_⟩
  · rw [generateSpeakers_append]
    simp [generateSpeakers, h]
  · show findNarratorWalk (BASE_SPEAKER_ID + totalSlots pre) BASE_SPEAKER_ID
        (pre ++ nf :: post) = _
    rw [findNarratorWalk_append_of_none pre (nf :: post) BASE_SPEAKER_ID
        (BASE_SPEAKER_ID + totalSlots pre)
        (findNarratorWalk_none pre BASE_SPEAKER_ID _ (Or.inr (le_refl _)))]
    simp [findNarratorWalk, h]
  · intro styleId hgt
    show findNarratorWalk styleId BASE_SPEAKER_ID (pre ++ nf :: post) = _
    rw [findNarratorWalk_append_of_none pre (nf :: post) BASE_SPEAKER_ID styleId
        (findNarratorWalk_none pre BASE_SPEAKER_ID styleId (by omega))]
    have hne : BASE_SPEAKER_ID + totalSlots pre ≠ styleId := by omega
    simp [findNarratorWalk, h, hne]

/-- Witness for C6 at a concrete catalog: one successful narrator, one
failing narrator, one successful narrator after it. -/
theorem emotion_failure_synthetic_slot_witness :
    generateSpeakers BASE_SPEAKER_ID
        [{ name := "A", emotions := some ["x", "y"] },
         { name := "F", emotions := none },
         { name := "B", emotions := some ["z"] }]
      = generateSpeakers BASE_SPEAKER_ID [{ name := "A", emotions := some ["x", "y"] }]
        ++ { name := "F", speaker_uuid := DEFAULT_SPEAKER_UUID,
             styles := [{ name := "通常", id := 2041348162, type := "talk" }],
             version := "1.0.0" }
          :: generateSpeakers 2041348163 [{ name := "B", emotions := some ["z"] }]
    ∧ findNarratorByStyleId
        (Except.ok [{ name := "A", emotions := some ["x", "y"] },
                    { name := "F", emotions := none },
                    { name := "B", emotions := some ["z"] }]) 2041348162
      = some { narrator := "F", emotion := "honwaka" } := by
  have hmain := emotion_failure_synthetic_slot
      [{ name := "A", emotions := some ["x", "y"] }]
      [{ name := "B", emotions := some ["z"] }]
      { name := "F", emotions := none } rfl
  refine ⟨?_, ?_⟩
  · have h1 := hmain.1
    simp only [totalSlots, slotCount, List.map, List.sum_cons, List.sum_nil] at h1
    exact h1
  · have h2 := hmain.2.1
    simp only [totalSlots, slotCount, List.map, List.sum_cons, List.sum_nil] at h2
    exact h2

/-- Counterexample to C7 as stated: the inline `POST /synthesis` handler
in `app/index.js` maps the missing-output message to HTTP status 422, not
the 500 the claim requires. -/
theorem synthesis_no_output_status_not_500 :
    (classifyVoiceVoxSynthesisError "音声ファイルが生成されませんでした").status = 422
    ∧ (422 : Nat) ≠ 500 := by
  constructor
  · decide
  · decide

/-- C7 (amended): when the binary exits 0 but the output file is absent,
synthesis fails with the distinct message
`音声ファイルが生成されませんでした`; every error table maps that message
to a dedicated `synthesis_error` envelope entry, but only the
`ResponseFormatter` table used by the modular routes assigns HTTP 500 —
the inline handlers in `app/index.js` leave the status at 422. -/
theorem synthesis_no_output_distinct :
    (∀ stdout : String,
        runVoicepeakSynthesis (ExecOutcome.success stdout) false
          = Except.error "音声ファイルが生成されませんでした")
    ∧ handleValidationError "音声ファイルが生成されませんでした"
        = { status := 500, loc := ["synthesis", ""],
            msg := "Voicepeakが音声ファイルを生成できませんでした。パラメータを確認してください。",
            type := "synthesis_error" }
    ∧ classifyVoiceVoxSynthesisError "音声ファイルが生成されませんでした"
        = { status := 422, loc := ["synthesis"],
            msg := "音声ファイルの生成に失敗しました",
            type := "synthesis_error" } := by
  refine ⟨fun stdout => rfl, by decide, by decide⟩

/-- C8: with a 60000 ms window and a limit of 2 for one client starting
from an empty entry, the first two checks succeed, recording their
timestamps; a third check while both recorded timestamps are still inside
the window throws the rate-limit error without changing the entry; and a
check made after the window has elapsed (both recorded timestamps older
than the window) succeeds again. -/
theorem rate_limit_window (t1 t2 t3 t4 : Int)
    (h12 : t1 ≤ t2) (h23 : t2 ≤ t3) (hwin : t3 - 60000 < t1)
    (hafter : t2 ≤ t4 - 60000) :
    checkRateLimit none t1 2 60000 = (Except.ok (), some [t1])
    ∧ checkRateLimit (some [t1]) t2 2 60000 = (Except.ok (), some [t1, t2])
    ∧ checkRateLimit (some [t1, t2]) t3 2 60000
        = (Except.error rateLimitMessage, some [t1, t2])
    ∧ checkRateLimit (some [t1, t2]) t4 2 60000 = (Except.ok (), some [t4]) := by
  have k1 : t2 - 60000 < t1 := by omega
  have k2 : t3 - 60000 < t2 := by omega
  have k3 : ¬(t4 - 60000 < t1) := by omega
  have k4 : ¬(t4 - 60000 < t2) := by omega
  refine ⟨?_, ?_, ?_, ?_⟩
  · simp [checkRateLimit]
  · simp [checkRateLimit, List.filter_cons, List.filter_nil, k1]
  · simp [checkRateLimit, List.filter_cons, List.filter_nil, hwin, k2]
  · simp [checkRateLimit, List.filter_cons, List.filter_nil, k3, k4]

/-- Witness for C8 at concrete times 0, 1, 2 and 70000. -/
theorem rate_limit_window_witness :
    checkRateLimit none 0 2 60000 = (Except.ok (), some [0])
    ∧ checkRateLimit (some [0]) 1 2 60000 = (Except.ok (), some [0, 1])
    ∧ checkRateLimit (some [0, 1]) 2 2 60000
        = (Except.error rateLimitMessage, some [0, 1])
    ∧ checkRateLimit (some [0, 1]) 70000 2 60000 = (Except.ok (), some [70000]) :=
  rate_limit_window 0 1 2 70000 (by norm_num) (by norm_num) (by norm_num)
    (by norm_num)

/-- C9: the reverse lookup is total over its `Option` result type — it
yields either a narrator/emotion pair or the not-found sentinel `none`,
never an error — and a failure of the top-level narrator listing itself
(spawn error, non-zero exit, timeout) is answered with `none`, exactly the
value an unknown id produces. -/
theorem findNarratorByStyleId_never_throws :
    (∀ (e : String) (styleId : Nat),
        findNarratorByStyleId (Except.error e) styleId = none)
    ∧ (∀ (listing : Except String (List NarratorEntry)) (styleId : Nat),
        findNarratorByStyleId listing styleId = none
        ∨ ∃ info, findNarratorByStyleId listing styleId = some info) := by
  refine ⟨fun e styleId => rfl, fun listing styleId => ?_⟩
  cases h : findNarratorByStyleId listing styleId with
  | none => exact Or.inl rfl
  | some info => exact Or.inr ⟨info, rfl⟩

/-- Counterexample to C10 as stated: with `maxRequests = 0` and no stored
entry for the client, the rejecting call materializes the client's entry
as `some []` — the stored map entry is not left exactly as it was (it was
absent before the call). -/
theorem rejected_request_entry_materialized :
    checkRateLimit none 0 0 60000 = (Except.error rateLimitMessage, some [])
    ∧ some ([] : List Int) ≠ (none : Option (List Int)) := by
  constructor
  · decide
  · decide

/-- C10 (amended): whenever `checkRateLimit` rejects a request, the
client's recorded timestamp list is unchanged — the rejected request's
timestamp is never recorded, so rejected requests consume no future
quota; in particular an existing entry is returned exactly as it was, and
the only possible mutation on a rejecting call is materializing an absent
entry as the empty list (reachable only with `maxRequests = 0`). -/
theorem rejected_request_not_recorded (entry : Option (List Int)) (now : Int)
    (maxRequests : Nat) (windowMs : Int) (msg : String)
    (entry2 : Option (List Int))
    (h : checkRateLimit entry now maxRequests windowMs = (Except.error msg, entry2)) :
    entry2.getD [] = entry.getD []
    ∧ ∀ l, entry = some l → entry2 = some l := by
  cases entry with
  | none =>
      simp only [checkRateLimit] at h
      split at h
      · simp only [Prod.mk.injEq] at h
        rw [← h.2]
        exact ⟨rfl, fun l hl => by cases hl⟩
      · simp [Prod.mk.injEq] at h
  | some l =>
      simp only [checkRateLimit] at h
      split at h
      · simp only [Prod.mk.injEq] at h
        rw [← h.2]
        exact ⟨rfl, fun l' hl' => hl'⟩
      · simp [Prod.mk.injEq] at h

/-- Witness for C10 (amended) at a concrete rejecting call: an entry with
two in-window timestamps is returned unchanged. -/
theorem rejected_request_not_recorded_witness :
    (some [(0 : Int), 1] : Option (List Int)).getD []
        = (some [(0 : Int), 1] : Option (List Int)).getD []
    ∧ ∀ l, (some [(0 : Int), 1] : Option (List Int)) = some l
        → (some [(0 : Int), 1] : Option (List Int)) = some l :=
  rejected_request_not_recorded (some [0, 1]) 2 2 60000 rateLimitMessage
    (some [0, 1]) (by decide)
